import Mathlib

/-!
# Verification of the WHIDS agent core (detection pipeline and engine hot-reload)

Shallow embedding of the `hids` package: the rule/container synchronization
protocol with integrity verification (`needsRulesUpdate`, `needsContainersUpdate`,
`fetchRulesFromManager`, `fetchContainersFromManager`), the engine rebuild
procedure (`updateEngine`, `loadContainers`), the event ingestion step of
`HIDS.Run` (self-event filter `IsHIDSEvent`, match/forward decision policy,
event and alert counters), the adaptive command-runner polling loop, and the
container file-name convention (`containerPaths`).

External collaborators (manager client, digest primitives, rule engine,
filesystem walking, process tracker) are modelled as explicit inputs, mirroring
exactly the way the Go code consults them.
-/

namespace Whids

/-! ## Filesystem model

The agent persists rules and containers to disk.  We model the filesystem as an
association list from paths to file contents.  A sha256 sidecar is a plain text
file; a persisted container is an ordered list of lines (gzip encoding is a
collaborator and kept opaque). -/

inductive FSVal where
  | str (s : String)
  | lines (l : List String)
deriving DecidableEq, Repr

abbrev FS := List (String × FSVal)

def fsRead (fs : FS) (p : String) : Option FSVal :=
  match fs.find? (fun kv => kv.1 == p) with
  | some kv => some kv.2
  | none => none

def fsWrite (fs : FS) (p : String) (v : FSVal) : FS :=
  (p, v) :: fs.filter (fun kv => kv.1 ≠ p)

/-- Models `utils.ReadFileString` at the call sites of the agent, all of which
discard the error: a missing file yields the empty string.  The agent only ever
reads sha256 sidecar files (stored as `FSVal.str`) this way. -/
def readFileString (fs : FS) (p : String) : String :=
  match fsRead fs p with
  | some (.str s) => s
  | _ => ""

/-! ## Paths (`RulesPaths`, `containerPaths`) -/

-- Container extension (constant `containerExt` in the source)
def containerExt : String := ".cont.gz"

def pathJoin (dir file : String) : String := dir ++ "/" ++ file

/-- File name used to persist a container named `c` (the base name produced by
`containerPaths`). -/
def containerFileName (c : String) : String := c ++ containerExt

/-- `containerPaths` returns the path to the container and the path to its
sha256 file. -/
def containerPaths (containersDB c : String) : String × String :=
  let path := pathJoin containersDB (containerFileName c)
  (path, path ++ ".sha256")

/-- `RulesPaths` returns the path used by WHIDS to save gene rules and the path
of its sha256 sidecar. -/
def rulesPaths (rulesDB : String) : String × String :=
  let path := pathJoin rulesDB "database.gen"
  (path, path ++ ".sha256")

/-- `strings.SplitN(name, ".", 2)[0]`: the prefix of `name` before the first
dot (all of `name` when it holds no dot).  Used by `loadContainers` to derive
the engine container name from a file name. -/
def splitFirstDot (s : String) : String := ⟨s.toList.takeWhile (fun c => c ≠ '.')⟩

/-- `strings.HasSuffix` (structural implementation over the character list). -/
def hasSuffix (s suffix : String) : Bool :=
  s.toList.drop (s.toList.length - suffix.toList.length) == suffix.toList

/-! ## Manager client and forwarder (collaborators) -/

/-- The manager client interface consulted by the sync protocol.  Each getter
is the (pure) outcome of the corresponding remote call during one sync round.
`getContainerSha256` is modelled as total because both call sites in the source
discard its error. -/
structure ManagerClient where
  getRulesSha256 : Except String String
  getRules : Except String String
  getContainersList : Except String (List String)
  getContainerSha256 : String → String
  getContainer : String → Except String (List String)

/-- The forwarder: its `Local` flag (true when the agent runs standalone) and
its manager client. -/
structure Forwarder where
  isLocal : Bool
  client : ManagerClient

/-! ## Staleness predicates -/

/-- `needsRulesUpdate`: rules need to be updated with the new ones available in
the manager. -/
def needsRulesUpdate (fwd : Forwarder) (rulesDB : String) (fs : FS) : Bool :=
  if fwd.isLocal then false
  else
    match fwd.client.getRulesSha256 with
    | .error _ => false
    | .ok sha256 => readFileString fs (rulesPaths rulesDB).2 ≠ sha256

/-- `needsContainerUpdate`: returns true if a container needs to be updated. -/
def needsContainerUpdate (fwd : Forwarder) (fs : FS) (containersDB remoteCont : String) : Bool :=
  readFileString fs (containerPaths containersDB remoteCont).2 ≠
    fwd.client.getContainerSha256 remoteCont

/-- `needsContainersUpdate`: at least one container needs to be updated. -/
def needsContainersUpdate (fwd : Forwarder) (containersDB : String) (fs : FS) : Bool :=
  if fwd.isLocal then false
  else
    match fwd.client.getContainersList with
    | .error _ => false
    | .ok containers => containers.any (needsContainerUpdate fwd fs containersDB)

/-! ## Fetch-and-verify protocol

Both fetchers return the filesystem after the operation together with an
optional error, mirroring the fact that in the source the on-disk writes
performed before an early error return persist. -/

/-- `fetchRulesFromManager`: fetch rules and their digest from the manager,
recompute the digest locally (`data.Sha256`, passed as `digestStr`), and
persist both only when they agree. -/
def fetchRulesFromManager (cfgLocal : Bool) (fwd : Forwarder) (digestStr : String → String)
    (rulesDB : String) (fs : FS) : FS × Option String :=
  -- if we are not connected to a manager we return
  if cfgLocal then (fs, none)
  else
    match fwd.client.getRulesSha256 with
    | .error e => (fs, some e)
    | .ok sha256 =>
      match fwd.client.getRules with
      | .error e => (fs, some e)
      | .ok rules =>
        if sha256 ≠ digestStr rules then (fs, some "failed to verify rules integrity")
        else
          let paths := rulesPaths rulesDB
          (fsWrite (fsWrite fs paths.2 (.str sha256)) paths.1 (.str rules), none)

/-- One iteration of the container-fetch loop body for container `c`.  Returns
the filesystem after the iteration, the containers whose content was fetched
from the manager (`GetContainer` calls), and an optional error.  The digest
over the received line array (`utils.Sha256StringArray`) is the collaborator
`digestArr`. -/
def fetchOneContainer (fwd : Forwarder) (digestArr : List String → String)
    (containersDB : String) (fs : FS) (c : String) : FS × List String × Option String :=
  if needsContainerUpdate fwd fs containersDB c then
    match fwd.client.getContainer c with
    | .error e => (fs, [c], some e)
    | .ok cont =>
      -- we compare the integrity of the container received
      let compSha256 := digestArr cont
      let sha256 := fwd.client.getContainerSha256 c
      if compSha256 ≠ sha256 then
        (fs, [c], some ("failed to verify container \"" ++ c ++ "\" integrity"))
      else
        -- we dump the container, then its sha256
        let paths := containerPaths containersDB c
        (fsWrite (fsWrite fs paths.1 (.lines cont)) paths.2 (.str compSha256), [c], none)
  else (fs, [], none)

/-- The container-fetch loop: fetch-and-verify each container in turn, aborting
on the first error (writes already performed persist). -/
def fetchContainersLoop (fwd : Forwarder) (digestArr : List String → String)
    (containersDB : String) : List String → FS → FS × List String × Option String
  | [], fs => (fs, [], none)
  | c :: rest, fs =>
    match fetchOneContainer fwd digestArr containersDB fs c with
    | (fs', fetched, some e) => (fs', fetched, some e)
    | (fs', fetched, none) =>
      match fetchContainersLoop fwd digestArr containersDB rest fs' with
      | (fs'', fetched', r) => (fs'', fetched ++ fetched', r)

/-- `fetchContainersFromManager`. -/
def fetchContainersFromManager (cfgLocal : Bool) (fwd : Forwarder)
    (digestArr : List String → String) (containersDB : String) (fs : FS) :
    FS × List String × Option String :=
  -- if we are not connected to a manager we return
  if cfgLocal then (fs, [], none)
  else
    match fwd.client.getContainersList with
    | .error e => (fs, [], some e)
    | .ok containers => fetchContainersLoop fwd digestArr containersDB containers fs

/-! ## Detection engine (collaborator state)

The gene engine is an external collaborator exposing `AddRule`,
`LoadDirectory`, `LoadContainer` and `Count`.  We model the observable state it
accumulates: the ordered list of loaded containers and the number of rules
(`Count()` counts loaded + generated rules).  The outcome of
`LoadDirectory(rulesDB)` is an input of the rebuild (error, or number of rules
the directory holds). -/

structure Engine where
  showActions : Bool := false
  containers : List (String × List String) := []
  ruleCount : Nat := 0
deriving DecidableEq, Repr

/-- `newActionnableEngine`: a fresh engine with `ShowActions` set. -/
def newActionnableEngine : Engine := { showActions := true }

/-- `Engine.AddRule` (with a successfully compiled rule). -/
def Engine.addRule (e : Engine) : Engine := { e with ruleCount := e.ruleCount + 1 }

/-- `Engine.LoadContainer`. -/
def Engine.loadContainer (e : Engine) (name : String) (content : List String) : Engine :=
  { e with containers := e.containers ++ [(name, content)] }

/-- `Engine.Count`. -/
def Engine.count (e : Engine) : Nat := e.ruleCount

/-- Canary configuration: whether canaries are enabled, and the compilation
outcome of the two generated rules (`GenRuleSysmon`, `GenRuleFSAudit`). -/
structure CanariesConfig where
  enable : Bool
  compileSysmonRule : Except String Unit
  compileFSAuditRule : Except String Unit

/-- Canary-rule loading inside `updateEngine`: each successfully compiled
canary rule is added; compilation failures are logged only. -/
def addCanaries (cc : CanariesConfig) (e : Engine) : Engine :=
  let e1 := match cc.compileSysmonRule with
    | .ok _ => e.addRule
    | .error _ => e
  match cc.compileFSAuditRule with
  | .ok _ => e1.addRule
  | .error _ => e1

/-! ## Loading containers from disk (`loadContainers`) -/

/-- The walk of the containers directory (collaborator `fswalker.Walk`): each
entry is a file name together with the outcome of opening + gunzipping it (its
decoded lines on success, the open/decompression error otherwise). -/
abbrev DirListing := List (String × Except String (List String))

/-- The `loadContainers` loop: files with the container extension are loaded
under the name derived by splitting the file name at the first dot; per-file
errors update the `lastErr` accumulator and do not abort the walk. -/
def loadContainersLoop (e : Engine) (lastErr : Option String) :
    DirListing → Engine × Option String
  | [] => (e, lastErr)
  | (name, content) :: rest =>
    -- we take only files with good extension
    if hasSuffix name containerExt then
      match content with
      | .error err => loadContainersLoop e (some err) rest
      | .ok l => loadContainersLoop (e.loadContainer (splitFirstDot name) l) lastErr rest
    else loadContainersLoop e lastErr rest

/-- `loadContainers`: loads containers found in the container database
directory, best-effort, returning the last error encountered. -/
def loadContainers (listing : DirListing) (e : Engine) : Engine × Option String :=
  loadContainersLoop e none listing

/-- The containers successfully loaded from a directory listing, in walk order
(specification-side closed form used to state best-effort loading). -/
def containerSuccesses (listing : DirListing) : List (String × List String) :=
  listing.filterMap fun nc =>
    if hasSuffix nc.1 containerExt then
      match nc.2 with
      | .ok l => some (splitFirstDot nc.1, l)
      | .error _ => none
    else none

/-- The last per-file error of a directory listing, over an initial
accumulator. -/
def lastErrFrom (lastErr : Option String) (listing : DirListing) : Option String :=
  listing.foldl (fun acc nc =>
    if hasSuffix nc.1 containerExt then
      match nc.2 with
      | .error e => some e
      | .ok _ => acc
    else acc) lastErr

/-- The last per-file error of a directory listing. -/
def lastContainerError (listing : DirListing) : Option String := lastErrFrom none listing

/-! ## Engine rebuild (`updateEngine`) -/

/-- The collaborators and configuration consulted by one `updateEngine` run. -/
structure UpdateEnv where
  fwd : Forwarder                      -- `h.forwarder`
  cfgLocal : Bool                      -- `h.config.FwdConfig.Local`
  digestStr : String → String          -- `data.Sha256`
  digestArr : List String → String     -- `utils.Sha256StringArray`
  rulesDB : String                     -- `h.config.RulesConfig.RulesDB`
  containersDB : String                -- `h.config.RulesConfig.ContainersDB`
  canaries : CanariesConfig            -- `h.config.CanariesConfig`
  loadDirResult : Except String Nat    -- outcome of `Engine.LoadDirectory(rulesDB)`
  listing : DirListing                 -- walk of the containers directory

/-- The agent state touched by a rebuild: the active engine reference and the
persisted files. -/
structure AgentState where
  engine : Engine
  fs : FS

/-- Which manager interactions a rebuild performed (observability for the
staleness claims). -/
structure UpdateTrace where
  rulesFetchCalled : Bool
  containersFetchCalled : Bool
  containersContentFetched : List String
deriving DecidableEq, Repr

/-- `updateEngine`: check staleness, fetch-and-verify (fetch failures are
logged and downgrade the corresponding reload flag), and, when a reload or a
forced rebuild is due, construct a fresh engine: containers first (an error
here aborts the rebuild), then canary rules and the rule directory (a directory
load failure aborts the rebuild).  Note the fresh engine is installed as the
active engine before any loading happens, exactly as the assignment
`h.Engine = newActionnableEngine()` does in the source. -/
def updateEngine (env : UpdateEnv) (st : AgentState) (force : Bool) :
    AgentState × Option String × UpdateTrace :=
  let reloadRules0 := needsRulesUpdate env.fwd env.rulesDB st.fs
  let reloadContainers0 := needsContainersUpdate env.fwd env.containersDB st.fs
  let fr :=
    if reloadRules0 then
      match fetchRulesFromManager env.cfgLocal env.fwd env.digestStr env.rulesDB st.fs with
      | (fs', none) => (fs', true)
      | (fs', some _) => (fs', false)       -- failure logged, reloadRules reset
    else (st.fs, false)
  let fc :=
    if reloadContainers0 then
      match fetchContainersFromManager env.cfgLocal env.fwd env.digestArr env.containersDB fr.1 with
      | (fs', fetched, none) => (fs', fetched, true)
      | (fs', fetched, some _) => (fs', fetched, false)  -- failure logged
    else (fr.1, [], false)
  let tr : UpdateTrace := ⟨reloadRules0, reloadContainers0, fc.2.1⟩
  let reloadRules := fr.2
  let reloadContainers := fc.2.2
  let fs2 := fc.1
  let body : AgentState × Option String :=
    if reloadRules || reloadContainers || force then
      -- containers must be loaded before the rules anyway
      match loadContainers env.listing newActionnableEngine with
      | (e1, some err) => (⟨e1, fs2⟩, some ("error loading containers: " ++ err))
      | (e1, none) =>
        if reloadRules || force then
          let e2 := if env.canaries.enable then addCanaries env.canaries e1 else e1
          match env.loadDirResult with
          | .error err => (⟨e2, fs2⟩, some ("failed to load rules: " ++ err))
          | .ok n => (⟨{ e2 with ruleCount := e2.ruleCount + n }, fs2⟩, none)
        else (⟨e1, fs2⟩, none)
    else (⟨st.engine, fs2⟩, none)
  (body.1, body.2, tr)

/-! ## Events and the self-event filter (`IsHIDSEvent`) -/

/-- An event (`evtx.GoEvtxMap`) as observed by the ingestion loop: the three
GUID fields queried by `IsHIDSEvent` (`GetString` returns an error when the
field is absent, modelled by `none`), the presence of the internal scoring
metadata field (`engine.GeneInfoPath`), and whether the event represents
process termination. -/
structure Event where
  processGUID : Option String := none
  parentProcessGUID : Option String := none
  sourceProcessGUID : Option String := none
  hasGeneInfo : Bool := false
  isProcessTermination : Bool := false
deriving DecidableEq, Repr

/-- The process-activity tracker (collaborator): `GetByGuid` returns the
tracked process's recorded `ParentProcessGUID`, or `none` when the process is
not tracked. -/
abbrev Tracker := String → Option String

/-- `IsHIDSEvent` returns true if the event is generated by IDS activity:
its parent process GUID, its own process GUID or its source process GUID
equals the agent's GUID, or the tracker records the agent's GUID as the parent
of the event's (own or source) process. -/
def IsHIDSEvent (guid : String) (tracker : Tracker) (e : Event) : Bool :=
  (match e.parentProcessGUID with
   | some pguid => pguid == guid
   | none => false) ||
  (match e.processGUID with
   | some g =>
     g == guid ||
     (match tracker g with
      | some parentGUID => parentGUID == guid
      | none => false)
   | none => false) ||
  (match e.sourceProcessGUID with
   | some sguid =>
     sguid == guid ||
     (match tracker sguid with
      | some parentGUID => parentGUID == guid
      | none => false)
   | none => false)

/-- Modelled from the spec: `isSysmonProcessTerminate` (defined in a source
file not provided) recognizes events that "represent process termination". -/
def isSysmonProcessTerminate (e : Event) : Bool := e.isProcessTermination

/-! ## The per-record body of the ingestion loop (`HIDS.Run`) -/

/-- The configuration fields consulted per record by the ingestion loop. -/
structure RunCfg where
  critTresh : Nat := 0        -- `h.config.CritTresh`
  enableFiltering : Bool := false
  logAll : Bool := false
  printAll : Bool := false    -- `h.PrintAll`
deriving DecidableEq, Repr

/-- Result of `Engine.MatchOrFilter(event)` (collaborator): matched rule
names, criticality, filtered flag. -/
structure MatchResult where
  matched : List String := []
  criticality : Nat := 0
  filtered : Bool := false
deriving DecidableEq, Repr

/-- The two counters updated by the ingestion goroutine. -/
structure Counters where
  eventScanned : Nat := 0
  alertReported : Nat := 0
deriving DecidableEq, Repr

/-- Observable effects of processing one record. -/
structure StepOutput where
  preHooksRan : Bool
  forwarded : List Event      -- events piped to the forwarder, in order
  postHooksRan : Bool
  printedCount : Nat          -- local `PrintAll` emissions
  loggedConversionError : Bool
deriving DecidableEq, Repr

/-- `event.Del(&engine.GeneInfoPath)`: remove the internal scoring metadata
field. -/
def stripGeneInfo (e : Event) : Event := { e with hasGeneInfo := false }

/-- The match / decision-policy part of the loop body (the code after the
self-event check): match outcome switch, `PrintAll` emission, `LogAll`
forwarding, and the counter increments. -/
def processEvent (cfg : RunCfg) (mres : MatchResult) (e : Event) (c : Counters) :
    Counters × List Event × Bool :=
  -- if the event has matched at least one signature or is filtered
  let branch :=
    if !mres.matched.isEmpty || mres.filtered then
      if cfg.critTresh ≤ mres.criticality then
        (e, if !cfg.printAll && !cfg.logAll then [e] else [], true, 1)
      else if mres.filtered && cfg.enableFiltering && !cfg.printAll && !cfg.logAll then
        let e' := stripGeneInfo e
        (e', [e'], false, 0)
      else (e, [], false, 0)
    else (e, [], false, 0)
  let piped2 := if cfg.logAll then [branch.1] else []
  (⟨c.eventScanned + 1, c.alertReported + branch.2.2.2⟩, branch.2.1 ++ piped2, branch.2.2.1)

/-- The loop body when the self-event skip is not taken. -/
def runStepNoSkip (cfg : RunCfg) (mres : MatchResult) (e : Event) (convErr : Option String)
    (c : Counters) : Counters × StepOutput :=
  let r := processEvent cfg mres e c
  (r.1, ⟨true, r.2.1, r.2.2, if cfg.printAll then 1 else 0, convErr.isSome⟩)

/-- One iteration of the ingestion loop of `HIDS.Run` for a raw record that
converted to `e` with conversion outcome `convErr` (a conversion failure is
logged; the loop then proceeds with the partially converted event).  Pre-hooks
always run; a self event which is not a process termination is skipped
(`goto LoopTail`), optionally printed, without touching the counters. -/
def runStep (cfg : RunCfg) (guid : String) (tracker : Tracker) (mres : MatchResult)
    (e : Event) (convErr : Option String) (c : Counters) : Counters × StepOutput :=
  if IsHIDSEvent guid tracker e && !isSysmonProcessTerminate e then
    (c, ⟨true, [], false, if cfg.printAll then 1 else 0, convErr.isSome⟩)
  else runStepNoSkip cfg mres e convErr c

/-! ## Command runner (adaptive polling, `commandRunnerRoutine`) -/

/-- The polling state of the command-runner loop. -/
structure CmdState where
  sleep : Nat      -- current sleep interval, milliseconds
  burstDur : Nat   -- burst-duration accumulator, milliseconds
deriving DecidableEq, Repr

def defaultSleepMs : Nat := 5000   -- `defaultSleep = 5 * time.Second`
def burstSleepMs : Nat := 500      -- `burstSleep = 500 * time.Millisecond`
def tgtBurstDurMs : Nat := 30000   -- `tgtBurstDur = 30 * time.Second`

/-- One iteration of the command-runner loop: on receiving a command the sleep
drops to the burst value and the accumulator resets; once the accumulator has
reached the target burst duration the sleep reverts to the default; while in
burst mode the accumulator grows by the sleep interval.  Returns the new state
and the duration actually slept at the end of the iteration. -/
def cmdStep (gotCommand : Bool) (s : CmdState) : CmdState × Nat :=
  let s1 := if gotCommand then { sleep := burstSleepMs, burstDur := 0 } else s
  -- if we reached the targetted burst duration
  let s2 := if tgtBurstDurMs ≤ s1.burstDur then { s1 with sleep := defaultSleepMs } else s1
  let s3 := if s2.sleep == burstSleepMs then { s2 with burstDur := s2.burstDur + s2.sleep } else s2
  (s3, s3.sleep)

/-- The state after `n` iterations of the loop, for a given command arrival
schedule (`inputs k` is true when iteration `k`'s fetch returns a command). -/
def cmdIter (inputs : Nat → Bool) : Nat → CmdState
  | 0 => ⟨defaultSleepMs, 0⟩
  | n + 1 => (cmdStep (inputs n) (cmdIter inputs n)).1

/-- The duration slept at the end of iteration `n`. -/
def cmdSleepAt (inputs : Nat → Bool) (n : Nat) : Nat :=
  (cmdStep (inputs n) (cmdIter inputs n)).2

/-- A synthetic command source yielding one command (at iteration 0) then
nothing. -/
def singleCommand : Nat → Bool := fun i => i == 0

/-! ## Concrete fixtures used by witnesses and counterexamples -/

/-- A manager client whose every remote call fails (agent effectively offline). -/
def offlineClient : ManagerClient :=
  { getRulesSha256 := .error "offline", getRules := .error "offline",
    getContainersList := .error "offline", getContainerSha256 := fun _ => "",
    getContainer := fun _ => .error "offline" }

/-- A forwarder marked `Local` (standalone agent). -/
def localFwd : Forwarder := ⟨true, offlineClient⟩

/-- A reachable manager reporting digest `deadbeef` for both the rules and the
single container `blacklist`. -/
def remoteClient : ManagerClient :=
  { getRulesSha256 := .ok "deadbeef", getRules := .ok "rule content",
    getContainersList := .ok ["blacklist"],
    getContainerSha256 := fun _ => "deadbeef",
    getContainer := fun _ => .ok ["evil.com"] }

def remoteFwd : Forwarder := ⟨false, remoteClient⟩

/-- A concrete stand-in for the `data.Sha256` collaborator. -/
def shaStr : String → String := fun s => "sha256:" ++ s

/-- A concrete stand-in for the `utils.Sha256StringArray` collaborator. -/
def shaArr : List String → String := fun l => "sha256:" ++ String.intercalate "," l

def noCanaries : CanariesConfig := ⟨false, .ok (), .ok ()⟩

/-- Rebuild environment of a standalone agent whose rule directory fails to
load. -/
def envRuleLoadFail : UpdateEnv :=
  { fwd := localFwd, cfgLocal := true, digestStr := shaStr, digestArr := shaArr,
    rulesDB := "rules", containersDB := "containers", canaries := noCanaries,
    loadDirResult := .error "no such directory", listing := [] }

/-- A previously active engine holding 5 rules. -/
def prevState : AgentState := ⟨{ showActions := true, containers := [], ruleCount := 5 }, []⟩

/-- A containers directory with one corrupt container file and one good one. -/
def badListing : DirListing :=
  [("bad.cont.gz", .error "gzip: invalid header"), ("good.cont.gz", .ok ["indicator1"])]

/-- Rebuild environment of a standalone agent with one corrupt container and a
perfectly loadable rule directory. -/
def envContLoadFail : UpdateEnv :=
  { envRuleLoadFail with listing := badListing, loadDirResult := .ok 3 }

/-- Local digest sidecars that agree with what `remoteClient` reports. -/
def syncedFS : FS :=
  [("rules/database.gen.sha256", .str "deadbeef"),
   ("containers/blacklist.cont.gz.sha256", .str "deadbeef")]

/-- Rebuild environment of an agent fully in sync with `remoteClient`. -/
def envSynced : UpdateEnv :=
  { fwd := remoteFwd, cfgLocal := false, digestStr := shaStr, digestArr := shaArr,
    rulesDB := "rules", containersDB := "containers", canaries := noCanaries,
    loadDirResult := .ok 3, listing := [] }

def syncedState : AgentState := ⟨{ showActions := true }, syncedFS⟩

def cfg0 : RunCfg := {}
def trk0 : Tracker := fun _ => none
def mres0 : MatchResult := {}
def ev0 : Event := {}

/-- An event whose own process GUID is the agent's (`"G"`). -/
def evSelf : Event := { processGUID := some "G" }

def cfgAlert : RunCfg := { critTresh := 5 }
def mresAlert : MatchResult := { matched := ["rule1"], criticality := 7 }

/-- A non-self event carrying the internal scoring metadata field. -/
def evOther : Event := { processGUID := some "other", hasGeneInfo := true }

def cfgFilt : RunCfg := { critTresh := 5, enableFiltering := true }
def mresFilt : MatchResult := { filtered := true, criticality := 0 }

/-! ## Helper lemmas -/

theorem takeWhile_append_dot (l rest : List Char) (h : ∀ x ∈ l, x ≠ '.') :
    (l ++ '.' :: rest).takeWhile (fun c => decide (c ≠ '.')) = l := by
  induction l with
  | nil => simp [List.takeWhile]
  | cons a l ih =>
    have ha : a ≠ '.' := h a (List.mem_cons_self a l)
    simp only [List.cons_append, List.takeWhile_cons, decide_eq_true_eq]
    rw [if_pos ha, ih (fun x hx => h x (List.mem_cons_of_mem a hx))]

/-- Closed form of the `loadContainers` loop: the successfully decoded
containers are loaded in walk order and the accumulator ends as the last
per-file error. -/
theorem loadContainersLoop_eq (listing : DirListing) :
    ∀ (e : Engine) (lastErr : Option String),
      loadContainersLoop e lastErr listing =
        ({ e with containers := e.containers ++ containerSuccesses listing },
         lastErrFrom lastErr listing) := by
  induction listing with
  | nil =>
    intro e lastErr
    simp [loadContainersLoop, containerSuccesses, lastErrFrom]
  | cons nc rest ih =>
    intro e lastErr
    obtain ⟨name, content⟩ := nc
    by_cases hs : hasSuffix name containerExt = true
    · cases content with
      | error err =>
        simp [loadContainersLoop, containerSuccesses, lastErrFrom, hs, ih, List.filterMap_cons]
      | ok l =>
        simp [loadContainersLoop, containerSuccesses, lastErrFrom, hs, ih,
          Engine.loadContainer, List.filterMap_cons, List.append_assoc]
    · rw [Bool.not_eq_true] at hs
      cases content with
      | error err =>
        simp [loadContainersLoop, containerSuccesses, lastErrFrom, hs, ih, List.filterMap_cons]
      | ok l =>
        simp [loadContainersLoop, containerSuccesses, lastErrFrom, hs, ih, List.filterMap_cons]

/-- The rebuild's trace records exactly the staleness predicates as its fetch
gates. -/
theorem updateEngine_trace_gates (env : UpdateEnv) (st : AgentState) (force : Bool) :
    (updateEngine env st force).2.2.rulesFetchCalled =
        needsRulesUpdate env.fwd env.rulesDB st.fs ∧
      (updateEngine env st force).2.2.containersFetchCalled =
        needsContainersUpdate env.fwd env.containersDB st.fs := by
  exact ⟨rfl, rfl⟩

/-- Any of the self-identifier conditions makes `IsHIDSEvent` true. -/
theorem IsHIDSEvent_of_self (guid : String) (tracker : Tracker) (e : Event)
    (h : e.parentProcessGUID = some guid ∨ e.processGUID = some guid ∨
         e.sourceProcessGUID = some guid ∨
         (∃ g, e.processGUID = some g ∧ tracker g = some guid) ∨
         (∃ g, e.sourceProcessGUID = some g ∧ tracker g = some guid)) :
    IsHIDSEvent guid tracker e = true := by
  rcases h with h | h | h | ⟨g, hg, ht⟩ | ⟨g, hg, ht⟩ <;>
    simp [IsHIDSEvent, *]

/-! ## Claims -/

/-- Claim C10: persisting a container named `c` writes a file named
`c ++ ".cont.gz"` (the base name used by `containerPaths`), and reloading the
container directory derives the engine container name by splitting that file
name at the first dot; for every name with no dot the round trip recovers
exactly the original name, while for the name `"my.list"` (which contains a
dot) the recovered name differs. -/
theorem containerName_roundtrip :
    (∀ db c : String, (containerPaths db c).1 = pathJoin db (containerFileName c)) ∧
    (∀ c : String, '.' ∉ c.toList → splitFirstDot (containerFileName c) = c) ∧
    splitFirstDot (containerFileName "my.list") ≠ "my.list" := by
  refine ⟨fun db c => rfl, fun c hc => ?_, by decide⟩
  obtain ⟨l⟩ := c
  have hl : ∀ x ∈ l, x ≠ '.' := by
    intro x hx heq
    exact hc (heq ▸ hx)
  show (⟨(String.mk l ++ containerExt).toList.takeWhile fun c => decide (c ≠ '.')⟩ : String)
      = String.mk l
  have happ : (String.mk l ++ containerExt).toList = l ++ containerExt.toList := rfl
  rw [happ]
  show (⟨(l ++ '.' :: "cont.gz".toList).takeWhile fun c => decide (c ≠ '.')⟩ : String)
      = String.mk l
  rw [takeWhile_append_dot l _ hl]

/-- Witness for C10 at the dot-free container name `"blacklist"`. -/
theorem containerName_roundtrip_witness :
    '.' ∉ "blacklist".toList ∧ splitFirstDot (containerFileName "blacklist") = "blacklist" :=
  ⟨by decide, containerName_roundtrip.2.1 "blacklist" (by decide)⟩

/-- Claim C8: in the command-runner loop, with a command received at iteration
0 and none afterwards, every one of iterations 0 through 59 sleeps the fast
burst interval while the burst accumulator grows by the fast interval each
tick; the accumulator reaches the 30-second target exactly after those 60 fast
ticks, and iteration 60 is the first to sleep the slow default again. -/
theorem commandRunner_burst :
    (∀ k, k < 60 → cmdSleepAt singleCommand k = burstSleepMs) ∧
    (∀ k, k < 60 → (cmdIter singleCommand (k + 1)).burstDur = burstSleepMs * (k + 1)) ∧
    (cmdIter singleCommand 60).burstDur = tgtBurstDurMs ∧
    cmdSleepAt singleCommand 60 = defaultSleepMs ∧
    (cmdIter singleCommand 61).sleep = defaultSleepMs := by
  refine ⟨by decide, by decide, by decide, by decide, by decide⟩

/-- Witness for C8: the last fast tick (iteration 59) and the reversion tick
(iteration 60), concretely. -/
theorem commandRunner_burst_witness :
    cmdSleepAt singleCommand 59 = burstSleepMs ∧ cmdSleepAt singleCommand 60 = defaultSleepMs :=
  ⟨commandRunner_burst.1 59 (by decide), commandRunner_burst.2.2.2.1⟩

/-- Claim C1: when the digest recomputed over fetched rule content differs
from the manager-reported digest, `fetchRulesFromManager` returns the
integrity error and leaves the filesystem untouched (neither the rules file
nor its sha256 sidecar is written); likewise a container whose recomputed
digest differs from the reported one makes the container fetch fail before
that container's file or sidecar is written. -/
theorem fetch_integrity_failure_preserves_state
    (fwd : Forwarder) (digestStr : String → String) (digestArr : List String → String)
    (rulesDB containersDB : String) (fs : FS) (sha rules c : String) (cont : List String) :
    (fwd.client.getRulesSha256 = .ok sha → fwd.client.getRules = .ok rules →
      sha ≠ digestStr rules →
      fetchRulesFromManager false fwd digestStr rulesDB fs =
        (fs, some "failed to verify rules integrity")) ∧
    (needsContainerUpdate fwd fs containersDB c = true →
      fwd.client.getContainer c = .ok cont →
      digestArr cont ≠ fwd.client.getContainerSha256 c →
      fetchOneContainer fwd digestArr containersDB fs c =
        (fs, [c], some ("failed to verify container \"" ++ c ++ "\" integrity"))) := by
  constructor
  · intro hsha hrules hneq
    simp [fetchRulesFromManager, hsha, hrules, hneq]
  · intro hupd hcont hneq
    simp [fetchOneContainer, hupd, hcont, hneq]

/-- Witness for C1: a manager claiming digest `"deadbeef"` for rule content
and a container whose recomputed digests differ. -/
theorem fetch_integrity_failure_preserves_state_witness :
    fetchRulesFromManager false remoteFwd shaStr "rules" [] =
      ([], some "failed to verify rules integrity") ∧
    fetchOneContainer remoteFwd shaArr "containers" [] "blacklist" =
      ([], ["blacklist"], some "failed to verify container \"blacklist\" integrity") :=
  ⟨(fetch_integrity_failure_preserves_state remoteFwd shaStr shaArr "rules" "containers" []
      "deadbeef" "rule content" "blacklist" ["evil.com"]).1 rfl rfl (by decide),
   (fetch_integrity_failure_preserves_state remoteFwd shaStr shaArr "rules" "containers" []
      "deadbeef" "rule content" "blacklist" ["evil.com"]).2 (by decide) rfl (by decide)⟩

/-- Claim C9: both staleness predicates are false for a standalone agent
(forwarder marked `Local`) and when the corresponding digest fetch from the
manager fails; when the locally stored digest equals the manager-reported one
the rules predicate is false, `updateEngine` then performs no rules fetch, and
an up-to-date container is skipped by the container fetch (no `GetContainer`
call, filesystem untouched). -/
theorem staleness_gating (env : UpdateEnv) (st : AgentState) (force : Bool) (c e sha : String) :
    (env.fwd.isLocal = true →
      needsRulesUpdate env.fwd env.rulesDB st.fs = false ∧
      needsContainersUpdate env.fwd env.containersDB st.fs = false) ∧
    (env.fwd.client.getRulesSha256 = .error e →
      needsRulesUpdate env.fwd env.rulesDB st.fs = false) ∧
    (env.fwd.client.getContainersList = .error e →
      needsContainersUpdate env.fwd env.containersDB st.fs = false) ∧
    (env.fwd.client.getRulesSha256 = .ok sha →
      readFileString st.fs (rulesPaths env.rulesDB).2 = sha →
      needsRulesUpdate env.fwd env.rulesDB st.fs = false) ∧
    (needsRulesUpdate env.fwd env.rulesDB st.fs = false →
      (updateEngine env st force).2.2.rulesFetchCalled = false) ∧
    (readFileString st.fs (containerPaths env.containersDB c).2 =
        env.fwd.client.getContainerSha256 c →
      fetchOneContainer env.fwd env.digestArr env.containersDB st.fs c = (st.fs, [], none)) := by
  refine ⟨?_, ?_, ?_, ?_, ?_, ?_⟩
  · intro hl
    exact ⟨by simp [needsRulesUpdate, hl], by simp [needsContainersUpdate, hl]⟩
  · intro he
    simp [needsRulesUpdate, he]
  · intro he
    simp [needsContainersUpdate, he]
  · intro hsha hloc
    simp [needsRulesUpdate, hsha, hloc]
  · intro hfalse
    rw [(updateEngine_trace_gates env st force).1, hfalse]
  · intro heq
    simp [fetchOneContainer, needsContainerUpdate, heq]

/-- Witness for C9: a standalone agent, a manager whose digest fetches fail,
and an agent whose stored digests match the manager's. -/
theorem staleness_gating_witness :
    needsRulesUpdate localFwd "rules" [] = false ∧
    needsContainersUpdate localFwd "containers" [] = false ∧
    needsRulesUpdate remoteFwd "rules" syncedFS = false ∧
    (updateEngine envSynced syncedState true).2.2.rulesFetchCalled = false ∧
    fetchOneContainer remoteFwd shaArr "containers" syncedFS "blacklist" =
      (syncedFS, [], none) :=
  have hlocal := (staleness_gating envRuleLoadFail prevState true "blacklist" "offline"
    "deadbeef").1 rfl
  have hsynced := staleness_gating envSynced syncedState true "blacklist" "offline" "deadbeef"
  have h3 : needsRulesUpdate remoteFwd "rules" syncedFS = false :=
    hsynced.2.2.2.1 rfl (by decide)
  ⟨hlocal.1, hlocal.2, h3, hsynced.2.2.2.2.1 h3, hsynced.2.2.2.2.2 (by decide)⟩

/-- Counterexample to C2 as stated: with a previously active engine holding 5
rules and a rule directory that fails to load, the rebuild does surface an
error, but the previously active engine does NOT remain active and `Count()`
changes (the freshly constructed engine, installed before rule loading, is the
active one). -/
theorem ruleLoadFailure_previous_engine_lost_cex :
    ((updateEngine envRuleLoadFail prevState true).2.1).isSome = true ∧
    (updateEngine envRuleLoadFail prevState true).1.engine ≠ prevState.engine ∧
    (updateEngine envRuleLoadFail prevState true).1.engine.count ≠ prevState.engine.count := by
  refine ⟨by decide, by decide, by decide⟩

/-- Claim C2 (amended): when loading the rule directory fails, the rebuild is
aborted with the error surfaced to the caller; however, because the fresh
engine replaces the active engine reference before any loading, the active
engine after the failed rebuild is the newly constructed partial engine
(containers plus canary rules only), not the previous engine, and `Count()`
reflects that partial engine. -/
theorem ruleLoadFailure_aborts_with_partial_engine (env : UpdateEnv) (st : AgentState)
    (msg : String)
    (hcont : (loadContainers env.listing newActionnableEngine).2 = none)
    (hdir : env.loadDirResult = .error msg) :
    (updateEngine env st true).2.1 = some ("failed to load rules: " ++ msg) ∧
    (updateEngine env st true).1.engine =
      (if env.canaries.enable then
        addCanaries env.canaries (loadContainers env.listing newActionnableEngine).1
      else (loadContainers env.listing newActionnableEngine).1) := by
  unfold updateEngine
  simp only [Bool.or_true]
  rw [loadContainers] at hcont ⊢
  rw [loadContainersLoop_eq] at hcont ⊢
  have hcont' : lastErrFrom none env.listing = none := hcont
  simp only [hcont', hdir]
  simp

/-- Witness for the amended C2, at the concrete failing rebuild. -/
theorem ruleLoadFailure_aborts_with_partial_engine_witness :
    (updateEngine envRuleLoadFail prevState true).2.1 =
      some "failed to load rules: no such directory" ∧
    (updateEngine envRuleLoadFail prevState true).1.engine = newActionnableEngine := by
  have h := ruleLoadFailure_aborts_with_partial_engine envRuleLoadFail prevState
    "no such directory" (by decide) rfl
  exact ⟨h.1, by rw [h.2]; decide⟩

/-- Counterexample to C3 as stated: with one corrupt container file and one
good one, the remaining container does load, but the rule directory (which
would contribute 3 rules) is NOT loaded and engine construction IS blocked —
`updateEngine` returns the container error. -/
theorem containerLoadFailure_blocks_rebuild_cex :
    (updateEngine envContLoadFail prevState true).2.1 =
      some "error loading containers: gzip: invalid header" ∧
    (updateEngine envContLoadFail prevState true).1.engine.containers =
      [("good", ["indicator1"])] ∧
    (updateEngine envContLoadFail prevState true).1.engine.ruleCount = 0 := by
  refine ⟨by decide, by decide, by decide⟩

/-- Claim C3 (amended): container files that fail to open or decompress are
skipped and all remaining containers are still loaded into the new engine,
with only the last error reported by `loadContainers`; however `updateEngine`
treats that error as fatal — the rule directory is not loaded and the rebuild
returns the error, with the partial (containers-only) engine active. -/
theorem containerLoad_bestEffort_but_fatal (listing : DirListing) (e : Engine)
    (env : UpdateEnv) (st : AgentState) (msg : String)
    (hlist : env.listing = listing)
    (herr : lastContainerError listing = some msg) :
    (loadContainers listing e).1.containers = e.containers ++ containerSuccesses listing ∧
    (loadContainers listing e).2 = some msg ∧
    (updateEngine env st true).2.1 = some ("error loading containers: " ++ msg) ∧
    (updateEngine env st true).1.engine.containers = containerSuccesses listing ∧
    (updateEngine env st true).1.engine.ruleCount = 0 := by
  have hload := loadContainersLoop_eq listing e none
  rw [lastContainerError] at herr
  refine ⟨?_, ?_, ?_, ?_, ?_⟩
  · rw [loadContainers, hload]
  · rw [loadContainers, hload, herr]
  all_goals
    unfold updateEngine
    simp only [Bool.or_true, hlist]
    rw [loadContainers, loadContainersLoop_eq, herr]
    simp [newActionnableEngine]

/-- Witness for the amended C3, at the concrete listing with one corrupt and
one good container. -/
theorem containerLoad_bestEffort_but_fatal_witness :
    (loadContainers badListing newActionnableEngine).1.containers =
      [("good", ["indicator1"])] ∧
    (updateEngine envContLoadFail prevState true).2.1 =
      some "error loading containers: gzip: invalid header" := by
  have h := containerLoad_bestEffort_but_fatal badListing newActionnableEngine
    envContLoadFail prevState "gzip: invalid header" rfl (by decide)
  refine ⟨by rw [h.1]; decide, h.2.2.1⟩

/-- Counterexample to C4 as stated: a record whose conversion fails is NOT
dropped — the loop logs the failure and keeps processing the partially
converted event, and the scanned-event counter still increments (here from 0
to 1). -/
theorem conversionFailure_still_counted_cex :
    (runStep cfg0 "G" trk0 mres0 ev0 (some "conversion failed") ⟨0, 0⟩).1.eventScanned = 1 ∧
    (runStep cfg0 "G" trk0 mres0 ev0 (some "conversion failed") ⟨0, 0⟩).2.loggedConversionError
      = true := by
  refine ⟨by decide, by decide⟩

/-- Claim C4 (amended): the scanned-event counter increments exactly once per
record that is not a skipped self-event — regardless of whether the record's
conversion succeeded, since a conversion failure is only logged and the record
is still processed — and never increments (indeed no counter changes) for a
skipped self-event. -/
theorem eventScanned_increment (cfg : RunCfg) (guid : String) (tracker : Tracker)
    (mres : MatchResult) (e : Event) (convErr : Option String) (c : Counters) :
    ((IsHIDSEvent guid tracker e && !isSysmonProcessTerminate e) = true →
      (runStep cfg guid tracker mres e convErr c).1 = c) ∧
    ((IsHIDSEvent guid tracker e && !isSysmonProcessTerminate e) = false →
      (runStep cfg guid tracker mres e convErr c).1.eventScanned = c.eventScanned + 1) := by
  constructor
  · intro hskip
    simp [runStep, hskip]
  · intro hskip
    simp [runStep, hskip, runStepNoSkip, processEvent]

/-- Witness for the amended C4: a successfully converted non-self event is
counted once, and a self event is not counted. -/
theorem eventScanned_increment_witness :
    (runStep cfg0 "G" trk0 mres0 ev0 none ⟨3, 0⟩).1.eventScanned = 3 + 1 ∧
    (runStep cfg0 "G" trk0 mres0 evSelf none ⟨3, 0⟩).1 = (⟨3, 0⟩ : Counters) :=
  ⟨(eventScanned_increment cfg0 "G" trk0 mres0 ev0 none ⟨3, 0⟩).2 (by decide),
   (eventScanned_increment cfg0 "G" trk0 mres0 evSelf none ⟨3, 0⟩).1 (by decide)⟩

/-- Claim C5: an event whose own, parent/source, or tracker-recorded parent
identifier equals the agent's identifier is skipped for detection (no match,
no forwarding, no post-hooks, counters untouched) — except when it represents
process termination, in which case it goes through the full non-skip
processing. -/
theorem self_event_detection_skip (cfg : RunCfg) (guid : String) (tracker : Tracker)
    (mres : MatchResult) (e : Event) (convErr : Option String) (c : Counters)
    (h : e.parentProcessGUID = some guid ∨ e.processGUID = some guid ∨
         e.sourceProcessGUID = some guid ∨
         (∃ g, e.processGUID = some g ∧ tracker g = some guid) ∨
         (∃ g, e.sourceProcessGUID = some g ∧ tracker g = some guid)) :
    (isSysmonProcessTerminate e = false →
      runStep cfg guid tracker mres e convErr c =
        (c, ⟨true, [], false, if cfg.printAll then 1 else 0, convErr.isSome⟩)) ∧
    (isSysmonProcessTerminate e = true →
      runStep cfg guid tracker mres e convErr c = runStepNoSkip cfg mres e convErr c) := by
  have hh := IsHIDSEvent_of_self guid tracker e h
  constructor
  · intro ht
    simp [runStep, hh, ht]
  · intro ht
    simp [runStep, hh, ht]

/-- Witness for C5: an event whose own process GUID is the agent's is fully
skipped. -/
theorem self_event_detection_skip_witness :
    runStep cfg0 "G" trk0 mres0 evSelf none ⟨0, 0⟩ =
      ((⟨0, 0⟩ : Counters), (⟨true, [], false, 0, false⟩ : StepOutput)) :=
  (self_event_detection_skip cfg0 "G" trk0 mres0 evSelf none ⟨0, 0⟩
    (Or.inr (Or.inl rfl))).1 rfl

/-- Claim C6: a non-self event matching at least one rule with criticality at
or above the threshold, with log-all and print-all disabled, is forwarded
exactly once, post-detection hooks run on it, the alert counter increments by
exactly one, and the scanned counter by one. -/
theorem alert_forwarded_once (cfg : RunCfg) (guid : String) (tracker : Tracker)
    (mres : MatchResult) (e : Event) (convErr : Option String) (c : Counters)
    (hself : IsHIDSEvent guid tracker e = false)
    (hmatch : mres.matched ≠ [])
    (hcrit : cfg.critTresh ≤ mres.criticality)
    (hprint : cfg.printAll = false) (hlog : cfg.logAll = false) :
    (runStep cfg guid tracker mres e convErr c).2.forwarded = [e] ∧
    (runStep cfg guid tracker mres e convErr c).2.postHooksRan = true ∧
    (runStep cfg guid tracker mres e convErr c).1.alertReported = c.alertReported + 1 ∧
    (runStep cfg guid tracker mres e convErr c).1.eventScanned = c.eventScanned + 1 := by
  have hne : mres.matched.isEmpty = false := by
    simpa [List.isEmpty_iff] using hmatch
  simp [runStep, hself, runStepNoSkip, processEvent, hne, hcrit, hprint, hlog]

/-- Witness for C6: a concrete alerting event. -/
theorem alert_forwarded_once_witness :
    (runStep cfgAlert "G" trk0 mresAlert evOther none ⟨0, 0⟩).2.forwarded = [evOther] ∧
    (runStep cfgAlert "G" trk0 mresAlert evOther none ⟨0, 0⟩).2.postHooksRan = true ∧
    (runStep cfgAlert "G" trk0 mresAlert evOther none ⟨0, 0⟩).1.alertReported = 0 + 1 ∧
    (runStep cfgAlert "G" trk0 mresAlert evOther none ⟨0, 0⟩).1.eventScanned = 0 + 1 :=
  alert_forwarded_once cfgAlert "G" trk0 mresAlert evOther none ⟨0, 0⟩
    (by decide) (by decide) (by decide) rfl rfl

/-- Claim C7: a non-self event that matched only a filter rule (filtered flag
set, criticality below the threshold), with filtering enabled and log-all and
print-all disabled, is forwarded exactly once with the internal scoring
metadata field removed; the alert counter is unchanged and post-hooks do not
run. -/
theorem filtered_forwarded_stripped (cfg : RunCfg) (guid : String) (tracker : Tracker)
    (mres : MatchResult) (e : Event) (convErr : Option String) (c : Counters)
    (hself : IsHIDSEvent guid tracker e = false)
    (hfilt : mres.filtered = true)
    (hcrit : mres.criticality < cfg.critTresh)
    (hen : cfg.enableFiltering = true)
    (hprint : cfg.printAll = false) (hlog : cfg.logAll = false) :
    (runStep cfg guid tracker mres e convErr c).2.forwarded = [stripGeneInfo e] ∧
    (stripGeneInfo e).hasGeneInfo = false ∧
    (runStep cfg guid tracker mres e convErr c).1.alertReported = c.alertReported ∧
    (runStep cfg guid tracker mres e convErr c).2.postHooksRan = false := by
  have hnotcrit : ¬ cfg.critTresh ≤ mres.criticality := Nat.not_le.mpr hcrit
  simp [runStep, hself, runStepNoSkip, processEvent, stripGeneInfo, hfilt, hnotcrit, hen,
    hprint, hlog]

/-- Witness for C7: a concrete filtered-only event carrying the scoring
field. -/
theorem filtered_forwarded_stripped_witness :
    (runStep cfgFilt "G" trk0 mresFilt evOther none ⟨0, 0⟩).2.forwarded =
      [stripGeneInfo evOther] ∧
    (stripGeneInfo evOther).hasGeneInfo = false ∧
    (runStep cfgFilt "G" trk0 mresFilt evOther none ⟨0, 0⟩).1.alertReported = 0 ∧
    (runStep cfgFilt "G" trk0 mresFilt evOther none ⟨0, 0⟩).2.postHooksRan = false :=
  filtered_forwarded_stripped cfgFilt "G" trk0 mresFilt evOther none ⟨0, 0⟩
    (by decide) rfl (by decide) rfl rfl rfl

end Whids
